import Mathlib

/-!
Shallow embedding of the longbark-maintenance monitoring engine
(`src/backend/app`), developed to check the natural-language specification
against the code.  Python datetimes are modelled as integer Unix timestamps
in seconds; SQLAlchemy rows become Lean structures; a database table becomes
a list of rows; raised exceptions become `Except` errors.
-/

namespace LongBark

/-! ## Alert data model — `app/models/alert.py` -/

inductive AlertType
  | UPTIME | SSL | PERFORMANCE | BROKEN_LINKS | WORDPRESS | SEO | KEYWORD
deriving DecidableEq, Repr

inductive AlertSeverity
  | INFO | WARNING | ERROR | CRITICAL
deriving DecidableEq, Repr

inductive AlertStatus
  | OPEN | ACKNOWLEDGED | RESOLVED
deriving DecidableEq, Repr

/-- One row of the `alerts` table (`app/models/alert.py`, class `Alert`).
Notification-tracking columns are omitted: no claim mentions them. -/
structure Alert where
  id : Nat
  site_id : Nat
  alert_type : AlertType
  severity : AlertSeverity
  status : AlertStatus
  title : String
  message : String
  created_at : Int
  acknowledged_at : Option Int := none
  resolved_at : Option Int := none
  resolved_by : Option Nat := none
  resolution_notes : Option String := none
deriving DecidableEq, Repr

/-- The alerts table plus the primary-key sequence. -/
structure AlertDb where
  alerts : List Alert
  nextId : Nat
deriving DecidableEq, Repr

/-- The dedup query of `create_alert` (`monitoring_tasks.py:357`):
matching `site_id`, matching `alert_type`, and status `OPEN` (only). -/
def isOpenFor (siteId : Nat) (ty : AlertType) (a : Alert) : Bool :=
  a.site_id == siteId && a.alert_type == ty && a.status == AlertStatus.OPEN

/-- `create_alert` (`monitoring_tasks.py:347-380`): looks up an existing
`OPEN` alert for the same `(site_id, alert_type)`; if found, returns without
inserting; otherwise inserts a new `OPEN` alert and dispatches
`send_alert_notifications.delay(alert.id)`.  The second component is the
list of alert ids handed to the notification dispatcher. -/
def create_alert (db : AlertDb) (siteId : Nat) (ty : AlertType)
    (sev : AlertSeverity) (title message : String) (now : Int) :
    AlertDb × List Nat :=
  match db.alerts.find? (isOpenFor siteId ty) with
  | some _ => (db, [])
  | none =>
      let a : Alert :=
        { id := db.nextId, site_id := siteId, alert_type := ty,
          severity := sev, status := AlertStatus.OPEN,
          title := title, message := message, created_at := now }
      ({ alerts := db.alerts ++ [a], nextId := db.nextId + 1 }, [a.id])

/-- An HTTP error response raised by a route handler. -/
inductive HttpError
  | notFound
  | badRequest (detail : String)
deriving DecidableEq, Repr

/-- `db.query(Alert).filter(Alert.id == alert_id).first()`
(`alerts.py`, `verify_alert_access`; the ownership check is outside the
engine's scope — the caller is taken to be authorized). -/
def findAlert (db : AlertDb) (alertId : Nat) : Option Alert :=
  db.alerts.find? (fun a => a.id == alertId)

/-- Committing a mutated row back: every row carrying the id is replaced. -/
def updateAlert (db : AlertDb) (a : Alert) : AlertDb :=
  { db with alerts := db.alerts.map (fun b => if b.id == a.id then a else b) }

/-- `acknowledge_alert` (`alerts.py:108-138`): 404 when the alert does not
exist; 400 "Cannot acknowledge a resolved alert" when status is `RESOLVED`;
otherwise sets status `ACKNOWLEDGED` and `acknowledged_at = utcnow()`. -/
def acknowledge_alert (db : AlertDb) (alertId : Nat) (now : Int) :
    Except HttpError (AlertDb × Alert) :=
  match findAlert db alertId with
  | none => Except.error HttpError.notFound
  | some alert =>
      if alert.status == AlertStatus.RESOLVED then
        Except.error (HttpError.badRequest "Cannot acknowledge a resolved alert")
      else
        let a := { alert with status := AlertStatus.ACKNOWLEDGED,
                              acknowledged_at := some now }
        Except.ok (updateAlert db a, a)

/-- `resolve_alert` (`alerts.py:141-173`): 404 when absent; 400 "Alert is
already resolved" when status is `RESOLVED`; otherwise sets status
`RESOLVED`, `resolved_at = utcnow()`, `resolved_by = current_user.id`, and
overwrites `resolution_notes` only when truthy notes were supplied. -/
def resolve_alert (db : AlertDb) (alertId : Nat) (userId : Nat)
    (notes : Option String) (now : Int) :
    Except HttpError (AlertDb × Alert) :=
  match findAlert db alertId with
  | none => Except.error HttpError.notFound
  | some alert =>
      if alert.status == AlertStatus.RESOLVED then
        Except.error (HttpError.badRequest "Alert is already resolved")
      else
        let a := { alert with status := AlertStatus.RESOLVED,
                              resolved_at := some now,
                              resolved_by := some userId,
                              resolution_notes :=
                                match notes with
                                | some n => some n
                                | none => alert.resolution_notes }
        Except.ok (updateAlert db a, a)

/-- `delete_alert` (`alerts.py:176-193`): 404 when absent; otherwise the row
is removed outright. -/
def delete_alert (db : AlertDb) (alertId : Nat) :
    Except HttpError AlertDb :=
  match findAlert db alertId with
  | none => Except.error HttpError.notFound
  | some a =>
      Except.ok { db with alerts := db.alerts.filter (fun b => b.id != a.id) }

/-- One engine or API operation on the alerts table. -/
inductive AlertStep : AlertDb → AlertDb → Prop
  | create (db : AlertDb) (s : Nat) (t : AlertType) (sev : AlertSeverity)
      (ti m : String) (now : Int) :
      AlertStep db (create_alert db s t sev ti m now).1
  | ack {db db' : AlertDb} {i : Nat} {now : Int} {a : Alert}
      (h : acknowledge_alert db i now = Except.ok (db', a)) :
      AlertStep db db'
  | resolve {db db' : AlertDb} {i u : Nat} {notes : Option String}
      {now : Int} {a : Alert}
      (h : resolve_alert db i u notes now = Except.ok (db', a)) :
      AlertStep db db'
  | del {db db' : AlertDb} {i : Nat}
      (h : delete_alert db i = Except.ok db') :
      AlertStep db db'

/-- States reachable from the empty alerts table. -/
inductive AlertReachable : AlertDb → Prop
  | init : AlertReachable ⟨[], 0⟩
  | step {db db' : AlertDb} :
      AlertReachable db → AlertStep db db' → AlertReachable db'

/-- Number of `OPEN` alerts for one `(site_id, alert_type)` key. -/
def openCount (db : AlertDb) (siteId : Nat) (ty : AlertType) : Nat :=
  (db.alerts.filter (isOpenFor siteId ty)).length

/-! ## Helper lemmas about the alert table -/

theorem filter_map_length_le (l : List Alert) (f : Alert → Alert)
    (p : Alert → Bool) (hf : ∀ x, p (f x) = true → p x = true) :
    ((l.map f).filter p).length ≤ (l.filter p).length := by
  induction l with
  | nil => simp
  | cons b l ih =>
    simp only [List.map_cons, List.filter_cons]
    by_cases hfb : p (f b) = true
    · have hpb : p b = true := hf b hfb
      rw [if_pos hfb, if_pos hpb, List.length_cons, List.length_cons]
      exact Nat.succ_le_succ ih
    · rw [if_neg hfb]
      by_cases hpb : p b = true
      · rw [if_pos hpb, List.length_cons]
        exact Nat.le_succ_of_le ih
      · rw [if_neg hpb]
        exact ih

theorem filter_update_length_le (l : List Alert) (a : Alert) (k : Nat)
    (p : Alert → Bool) (hpa : p a = false) :
    ((l.map (fun b => if b.id == k then a else b)).filter p).length ≤
      (l.filter p).length := by
  refine filter_map_length_le l _ p ?_
  intro x hx
  by_cases hb : (x.id == k) = true
  · rw [if_pos hb, hpa] at hx
    exact absurd hx (by simp)
  · rwa [if_neg hb] at hx

theorem find?_update_eq (l : List Alert) (i : Nat) (a : Alert) (ha : a.id = i)
    (hsome : (l.find? (fun b => b.id == i)).isSome = true) :
    (l.map (fun b => if b.id == i then a else b)).find?
      (fun b => b.id == i) = some a := by
  induction l with
  | nil => simp at hsome
  | cons b l ih =>
    rw [List.find?_cons] at hsome
    simp only [List.map_cons, List.find?_cons]
    by_cases hb : (b.id == i) = true
    · rw [if_pos hb]
      have hai : (a.id == i) = true := by simp [ha]
      simp only [hai]
    · have hbf : (b.id == i) = false := by simpa using hb
      simp only [hbf] at hsome
      rw [if_neg hb]
      simp only [hbf]
      exact ih hsome

theorem findAlert_update (db : AlertDb) (i : Nat) (a : Alert) (ha : a.id = i)
    (hsome : (findAlert db i).isSome = true) :
    findAlert (updateAlert db a) i = some a := by
  unfold findAlert updateAlert at *
  simp only [ha]
  exact find?_update_eq db.alerts i a ha hsome

/-- The single-open-alert invariant: in every state reachable through the
engine's own operations, each `(site_id, alert_type)` key has at most one
alert in status `OPEN`. -/
theorem openCount_reachable_le_one {db : AlertDb} (h : AlertReachable db)
    (s : Nat) (t : AlertType) : openCount db s t ≤ 1 := by
  induction h with
  | init => simp [openCount]
  | @step dbp db' _ hstep ih =>
    cases hstep with
    | create s' t' sev ti m now =>
      simp only [create_alert]
      cases hf : dbp.alerts.find? (isOpenFor s' t') with
      | some a => simpa using ih
      | none =>
        have hnil : dbp.alerts.filter (isOpenFor s' t') = [] := by
          rw [List.filter_eq_nil_iff]
          intro x hx
          simpa using List.find?_eq_none.mp hf x hx
        simp only [openCount, List.filter_append, List.length_append]
        by_cases hkey : s' = s ∧ t' = t
        · obtain ⟨rfl, rfl⟩ := hkey
          rw [hnil]
          simp [isOpenFor]
        · have hpA : isOpenFor s t
              { id := dbp.nextId, site_id := s', alert_type := t',
                severity := sev, status := AlertStatus.OPEN,
                title := ti, message := m, created_at := now } = false := by
            simp only [isOpenFor]
            by_cases hs : s' = s
            · by_cases ht : t' = t
              · exact absurd ⟨hs, ht⟩ hkey
              · simp [ht]
            · simp [hs]
          have h2 : (List.filter (isOpenFor s t)
              [({ id := dbp.nextId, site_id := s', alert_type := t',
                  severity := sev, status := AlertStatus.OPEN, title := ti,
                  message := m, created_at := now } : Alert)]).length = 0 := by
            simp [List.filter_cons, hpA]
          rw [h2]
          simpa [openCount] using ih
    | @ack _ i now a h =>
      simp only [acknowledge_alert] at h
      cases hf : findAlert dbp i with
      | none => simp [hf] at h
      | some al =>
        simp only [hf] at h
        by_cases hres : (al.status == AlertStatus.RESOLVED) = true
        · rw [if_pos hres] at h
          simp at h
        · rw [if_neg hres] at h
          simp only [Except.ok.injEq, Prod.mk.injEq] at h
          obtain ⟨h1, _⟩ := h
          rw [← h1]
          simp only [openCount, updateAlert]
          refine le_trans (filter_update_length_le _ _ _ _ ?_) ih
          simp [isOpenFor]
    | @resolve _ i u notes now a h =>
      simp only [resolve_alert] at h
      cases hf : findAlert dbp i with
      | none => simp [hf] at h
      | some al =>
        simp only [hf] at h
        by_cases hres : (al.status == AlertStatus.RESOLVED) = true
        · rw [if_pos hres] at h
          simp at h
        · rw [if_neg hres] at h
          simp only [Except.ok.injEq, Prod.mk.injEq] at h
          obtain ⟨h1, _⟩ := h
          rw [← h1]
          simp only [openCount, updateAlert]
          refine le_trans (filter_update_length_le _ _ _ _ ?_) ih
          simp [isOpenFor]
    | @del _ i h =>
      simp only [delete_alert] at h
      cases hf : findAlert dbp i with
      | none => simp [hf] at h
      | some al =>
        simp only [hf, Except.ok.injEq] at h
        rw [← h]
        simp only [openCount]
        exact le_trans (((List.filter_sublist dbp.alerts).filter (isOpenFor s t)).length_le) ih

/-! ## A concrete trace: create, acknowledge, create again -/

/-- Predicate of the spec's invariant: a "live" alert, i.e. status in
{OPEN, ACKNOWLEDGED}. -/
def isLiveFor (siteId : Nat) (ty : AlertType) (a : Alert) : Bool :=
  a.site_id == siteId && a.alert_type == ty &&
    (a.status == AlertStatus.OPEN || a.status == AlertStatus.ACKNOWLEDGED)

def traceDb1 : AlertDb :=
  (create_alert ⟨[], 0⟩ 1 AlertType.UPTIME AlertSeverity.CRITICAL "t" "m" 0).1

def traceAck : Alert :=
  { id := 0, site_id := 1, alert_type := AlertType.UPTIME,
    severity := AlertSeverity.CRITICAL, status := AlertStatus.ACKNOWLEDGED,
    title := "t", message := "m", created_at := 0,
    acknowledged_at := some 5 }

def traceDb2 : AlertDb := ⟨[traceAck], 1⟩

def traceDb3 : AlertDb :=
  (create_alert traceDb2 1 AlertType.UPTIME AlertSeverity.CRITICAL "t" "m" 10).1

theorem traceDb2_reachable : AlertReachable traceDb2 := by
  have h1 : AlertReachable traceDb1 :=
    AlertReachable.step AlertReachable.init
      (AlertStep.create ⟨[], 0⟩ 1 AlertType.UPTIME AlertSeverity.CRITICAL "t" "m" 0)
  exact AlertReachable.step h1
    (AlertStep.ack (show acknowledge_alert traceDb1 0 5 =
      Except.ok (traceDb2, traceAck) by rfl))

/-- Claim C1 is false on the code: `create_alert` only treats an existing
`OPEN` alert as a duplicate, so after create → acknowledge → create the
reachable state `traceDb3` holds two alerts for the same
`(site_id, alert_type)` both with status in {OPEN, ACKNOWLEDGED}, and the
second `create_alert` call did insert despite the ACKNOWLEDGED alert. -/
theorem create_alert_ack_not_dedup_cex :
    AlertReachable traceDb3 ∧
    (traceDb2.alerts.filter (isLiveFor 1 AlertType.UPTIME)).length = 1 ∧
    (traceDb3.alerts.filter (isLiveFor 1 AlertType.UPTIME)).length = 2 ∧
    traceDb3.alerts.length = traceDb2.alerts.length + 1 ∧
    (create_alert traceDb2 1 AlertType.UPTIME AlertSeverity.CRITICAL
      "t" "m" 10).2.length = 1 := by
  refine ⟨?_, by decide, by decide, by decide, by decide⟩
  exact AlertReachable.step traceDb2_reachable
    (AlertStep.create traceDb2 1 AlertType.UPTIME AlertSeverity.CRITICAL "t" "m" 10)

/-- Claim C1 (amended): the dedup key only blocks on `OPEN` alerts.  In
every reachable state each `(site_id, alert_type)` has at most one `OPEN`
alert; `create_alert` is a no-op (no insertion, no notification) exactly
when an `OPEN` alert with the key exists, and otherwise appends one new
`OPEN` alert and signals the notification dispatcher exactly once.  An
`ACKNOWLEDGED` alert does not block creation. -/
theorem create_alert_open_dedup {db : AlertDb} (h : AlertReachable db)
    (s : Nat) (t : AlertType) (sev : AlertSeverity) (ti m : String)
    (now : Int) :
    openCount db s t ≤ 1 ∧
    ((db.alerts.find? (isOpenFor s t)).isSome = true →
      create_alert db s t sev ti m now = (db, [])) ∧
    (db.alerts.find? (isOpenFor s t) = none →
      (create_alert db s t sev ti m now).1.alerts = db.alerts ++
        [{ id := db.nextId, site_id := s, alert_type := t, severity := sev,
           status := AlertStatus.OPEN, title := ti, message := m,
           created_at := now }] ∧
      (create_alert db s t sev ti m now).2 = [db.nextId]) := by
  refine ⟨openCount_reachable_le_one h s t, ?_, ?_⟩
  · intro hs
    cases hf : db.alerts.find? (isOpenFor s t) with
    | none => rw [hf] at hs; simp at hs
    | some a => simp [create_alert, hf]
  · intro hf
    simp [create_alert, hf]

theorem create_alert_open_dedup_witness :
    openCount traceDb2 1 AlertType.UPTIME ≤ 1 ∧
    (create_alert traceDb2 1 AlertType.UPTIME AlertSeverity.CRITICAL
        "t" "m" 10).1.alerts = traceDb2.alerts ++
      [{ id := 1, site_id := 1, alert_type := AlertType.UPTIME,
         severity := AlertSeverity.CRITICAL, status := AlertStatus.OPEN,
         title := "t", message := "m", created_at := 10 }] := by
  have h := create_alert_open_dedup traceDb2_reachable 1 AlertType.UPTIME
    AlertSeverity.CRITICAL "t" "m" 10
  exact ⟨h.1, (h.2.2 (by decide)).1⟩

/-! ## Claim C2: alert lifecycle transitions -/

/-- Claim C2 is false on the code: `acknowledge_alert` only rejects
`RESOLVED` alerts, so acknowledging an alert that is already
`ACKNOWLEDGED` (not `OPEN`) succeeds rather than failing. -/
theorem acknowledge_from_acknowledged_cex :
    (findAlert traceDb2 0).map Alert.status = some AlertStatus.ACKNOWLEDGED ∧
    (acknowledge_alert traceDb2 0 7).isOk = true := by
  constructor
  · rfl
  · rfl

/-- The mutated row built by `resolve_alert` before commit. -/
def resolvedCopy (al : Alert) (u : Nat) (notes : Option String)
    (now : Int) : Alert :=
  { al with
    status := AlertStatus.RESOLVED,
    resolved_at := some now,
    resolved_by := some u,
    resolution_notes := (match notes with
                         | some n => some n
                         | none => al.resolution_notes) }

/-- Claim C2 (amended): `Acknowledge` succeeds from `OPEN` or
`ACKNOWLEDGED` (re-acknowledging refreshes `acknowledged_at`) and fails
with the 400 state error exactly when the alert is `RESOLVED`; `Resolve`
succeeds from `OPEN` or `ACKNOWLEDGED`, recording resolver identity and
timestamp; a second `Resolve` of the same alert fails with the 400 state
error and returns no new state (no double-apply), and `Resolve` followed
by `Acknowledge` fails likewise. -/
theorem alert_lifecycle_state_errors {db : AlertDb} {i : Nat} {al : Alert}
    (hf : findAlert db i = some al) (u : Nat) (notes : Option String)
    (now now2 now3 now4 : Int) :
    (al.status = AlertStatus.RESOLVED →
      acknowledge_alert db i now =
        Except.error (HttpError.badRequest "Cannot acknowledge a resolved alert") ∧
      resolve_alert db i u notes now =
        Except.error (HttpError.badRequest "Alert is already resolved")) ∧
    (al.status ≠ AlertStatus.RESOLVED →
      (∃ dba aa, acknowledge_alert db i now4 = Except.ok (dba, aa) ∧
        aa.status = AlertStatus.ACKNOWLEDGED ∧
        aa.acknowledged_at = some now4) ∧
      (∃ db' a', resolve_alert db i u notes now = Except.ok (db', a') ∧
        a'.status = AlertStatus.RESOLVED ∧
        a'.resolved_by = some u ∧ a'.resolved_at = some now ∧
        findAlert db' i = some a' ∧
        resolve_alert db' i u notes now2 =
          Except.error (HttpError.badRequest "Alert is already resolved") ∧
        acknowledge_alert db' i now3 =
          Except.error (HttpError.badRequest "Cannot acknowledge a resolved alert"))) := by
  have hid : al.id = i := by
    have := List.find?_some hf
    simpa using this
  constructor
  · intro hres
    have hres' : (al.status == AlertStatus.RESOLVED) = true := by
      simp [hres]
    constructor
    · simp [acknowledge_alert, hf, hres']
    · simp [resolve_alert, hf, hres']
  · intro hres
    have hres' : ¬ ((al.status == AlertStatus.RESOLVED) = true) := by
      simpa using hres
    have hsome : (findAlert db i).isSome = true := by
      rw [hf]; rfl
    constructor
    · exact ⟨updateAlert db
          { al with
            status := AlertStatus.ACKNOWLEDGED,
            acknowledged_at := some now4 },
        { al with
          status := AlertStatus.ACKNOWLEDGED,
          acknowledged_at := some now4 },
        by simp [acknowledge_alert, hf, hres'], rfl, rfl⟩
    · have hfind : findAlert (updateAlert db (resolvedCopy al u notes now)) i =
          some (resolvedCopy al u notes now) :=
        findAlert_update db i _ (by simp only [resolvedCopy]; exact hid) hsome
      refine ⟨updateAlert db (resolvedCopy al u notes now),
        resolvedCopy al u notes now, ?_, rfl, rfl, rfl, hfind, ?_, ?_⟩
      · simp [resolve_alert, hf, hres', resolvedCopy]
      · have hst : (resolvedCopy al u notes now).status = AlertStatus.RESOLVED := rfl
        simp [resolve_alert, hfind, hst]
      · have hst : (resolvedCopy al u notes now).status = AlertStatus.RESOLVED := rfl
        simp [acknowledge_alert, hfind, hst]

theorem alert_lifecycle_state_errors_witness :
    ∃ db' a', resolve_alert traceDb2 0 9 none 100 = Except.ok (db', a') ∧
      a'.status = AlertStatus.RESOLVED ∧
      a'.resolved_by = some 9 ∧ a'.resolved_at = some 100 ∧
      findAlert db' 0 = some a' ∧
      resolve_alert db' 0 9 none 101 =
        Except.error (HttpError.badRequest "Alert is already resolved") ∧
      acknowledge_alert db' 0 102 =
        Except.error (HttpError.badRequest "Cannot acknowledge a resolved alert") :=
  ((alert_lifecycle_state_errors (show findAlert traceDb2 0 = some traceAck by rfl)
    9 none 100 101 102 103).2 (by decide)).2

/-! ## Retention sweep — `monitoring_tasks.py`, `cleanup_old_data` -/

/-- The `checked_at` column shared by the six check tables (UptimeCheck,
SSLCheck, PerformanceCheck, BrokenLinkCheck, WordPressCheck, SEOCheck);
only `checked_at` is consulted by the sweep. -/
structure CheckRecord where
  site_id : Nat
  checked_at : Int
deriving DecidableEq, Repr

/-- The store as seen by `cleanup_old_data`: six check tables plus the
alerts table. -/
structure MonitoringDb where
  uptime_checks : List CheckRecord
  ssl_checks : List CheckRecord
  performance_checks : List CheckRecord
  broken_link_checks : List CheckRecord
  wordpress_checks : List CheckRecord
  seo_checks : List CheckRecord
  alerts : List Alert
deriving DecidableEq, Repr

/-- WHERE clause `Model.checked_at < cutoff_date` of the six deletes. -/
def checkExpired (cutoff : Int) (r : CheckRecord) : Bool :=
  r.checked_at < cutoff

/-- WHERE clause of the alert delete: `status == RESOLVED` and
`resolved_at < alert_cutoff`; a SQL NULL `resolved_at` makes the
comparison false, so such rows are kept. -/
def alertExpired (cutoff : Int) (a : Alert) : Bool :=
  a.status == AlertStatus.RESOLVED &&
    (match a.resolved_at with
     | some r => decide (r < cutoff)
     | none => false)

/-- `cleanup_old_data` (`monitoring_tasks.py:186-220`): deletes check rows
older than 90 days and RESOLVED alerts resolved more than 30 days ago.
`now` stands for `datetime.utcnow()` (read twice in one run by the
source; modelled as a single instant). -/
def cleanup_old_data (db : MonitoringDb) (now : Int) : MonitoringDb :=
  let cutoff_date := now - 90 * 86400
  let alert_cutoff := now - 30 * 86400
  { uptime_checks :=
      db.uptime_checks.filter (fun r => !(checkExpired cutoff_date r)),
    ssl_checks :=
      db.ssl_checks.filter (fun r => !(checkExpired cutoff_date r)),
    performance_checks :=
      db.performance_checks.filter (fun r => !(checkExpired cutoff_date r)),
    broken_link_checks :=
      db.broken_link_checks.filter (fun r => !(checkExpired cutoff_date r)),
    wordpress_checks :=
      db.wordpress_checks.filter (fun r => !(checkExpired cutoff_date r)),
    seo_checks :=
      db.seo_checks.filter (fun r => !(checkExpired cutoff_date r)),
    alerts := db.alerts.filter (fun a => !(alertExpired alert_cutoff a)) }

theorem mem_filter_notExpired (l : List CheckRecord) (c : Int)
    (r : CheckRecord) (hr : r ∈ l) :
    r ∈ l.filter (fun x => !(checkExpired c x)) ↔ ¬ (r.checked_at < c) := by
  simp [List.mem_filter, hr, checkExpired]

/-- Claim C8: the sweep deletes exactly the check rows with
`checked_at < now - 90 days` in each of the six tables, deletes exactly
the RESOLVED alerts with `resolved_at < now - 30 days`, never deletes an
OPEN or ACKNOWLEDGED alert, and on a table holding rows at `now - 91d`
and `now - 89d` keeps exactly the younger one. -/
theorem cleanup_old_data_spec (db : MonitoringDb) (now : Int) :
    (∀ r ∈ db.uptime_checks, r ∈ (cleanup_old_data db now).uptime_checks ↔
      ¬ (r.checked_at < now - 90 * 86400)) ∧
    (∀ r ∈ db.ssl_checks, r ∈ (cleanup_old_data db now).ssl_checks ↔
      ¬ (r.checked_at < now - 90 * 86400)) ∧
    (∀ r ∈ db.performance_checks,
      r ∈ (cleanup_old_data db now).performance_checks ↔
      ¬ (r.checked_at < now - 90 * 86400)) ∧
    (∀ r ∈ db.broken_link_checks,
      r ∈ (cleanup_old_data db now).broken_link_checks ↔
      ¬ (r.checked_at < now - 90 * 86400)) ∧
    (∀ r ∈ db.wordpress_checks,
      r ∈ (cleanup_old_data db now).wordpress_checks ↔
      ¬ (r.checked_at < now - 90 * 86400)) ∧
    (∀ r ∈ db.seo_checks, r ∈ (cleanup_old_data db now).seo_checks ↔
      ¬ (r.checked_at < now - 90 * 86400)) ∧
    (∀ a ∈ db.alerts, a ∈ (cleanup_old_data db now).alerts ↔
      ¬ (a.status = AlertStatus.RESOLVED ∧
         ∃ ra, a.resolved_at = some ra ∧ ra < now - 30 * 86400)) ∧
    (∀ a ∈ db.alerts,
      a.status = AlertStatus.OPEN ∨ a.status = AlertStatus.ACKNOWLEDGED →
      a ∈ (cleanup_old_data db now).alerts) ∧
    (cleanup_old_data
      ⟨[⟨1, now - 91 * 86400⟩, ⟨1, now - 89 * 86400⟩],
        [], [], [], [], [], []⟩ now).uptime_checks =
      [⟨1, now - 89 * 86400⟩] := by
  refine ⟨fun r hr => mem_filter_notExpired _ _ r hr,
    fun r hr => mem_filter_notExpired _ _ r hr,
    fun r hr => mem_filter_notExpired _ _ r hr,
    fun r hr => mem_filter_notExpired _ _ r hr,
    fun r hr => mem_filter_notExpired _ _ r hr,
    fun r hr => mem_filter_notExpired _ _ r hr,
    ?_, ?_, ?_⟩
  · intro a ha
    simp only [cleanup_old_data, List.mem_filter, ha, true_and]
    rw [alertExpired]
    cases hra : a.resolved_at with
    | none => simp [hra]
    | some ra =>
      by_cases hst : a.status = AlertStatus.RESOLVED
      · simp [hst, hra]
      · simp [hst]
  · intro a ha hlive
    simp only [cleanup_old_data, List.mem_filter, ha, true_and]
    rw [alertExpired]
    cases hlive with
    | inl h => simp [h]
    | inr h => simp [h]
  · have h91 : now - 91 * 86400 < now - 90 * 86400 := by omega
    have h89 : ¬ (now - 89 * 86400 < now - 90 * 86400) := by omega
    simp [cleanup_old_data, checkExpired, h91, h89]

theorem cleanup_old_data_spec_witness :
    ((⟨1, -(89 * 86400)⟩ : CheckRecord) ∈
      (cleanup_old_data ⟨[⟨1, -(89 * 86400)⟩], [], [], [], [], [],
        [{ id := 0, site_id := 1, alert_type := AlertType.UPTIME,
           severity := AlertSeverity.CRITICAL, status := AlertStatus.OPEN,
           title := "t", message := "m", created_at := 0 }]⟩ 0).uptime_checks) ∧
    ({ id := 0, site_id := 1, alert_type := AlertType.UPTIME,
       severity := AlertSeverity.CRITICAL, status := AlertStatus.OPEN,
       title := "t", message := "m", created_at := 0 } : Alert) ∈
      (cleanup_old_data ⟨[⟨1, -(89 * 86400)⟩], [], [], [], [], [],
        [{ id := 0, site_id := 1, alert_type := AlertType.UPTIME,
           severity := AlertSeverity.CRITICAL, status := AlertStatus.OPEN,
           title := "t", message := "m", created_at := 0 }]⟩ 0).alerts := by
  have h := cleanup_old_data_spec
    ⟨[⟨1, -(89 * 86400)⟩], [], [], [], [], [],
      [{ id := 0, site_id := 1, alert_type := AlertType.UPTIME,
         severity := AlertSeverity.CRITICAL, status := AlertStatus.OPEN,
         title := "t", message := "m", created_at := 0 }]⟩ 0
  constructor
  · exact (h.1 ⟨1, -(89 * 86400)⟩ (by decide)).mpr (by decide)
  · exact h.2.2.2.2.2.2.2.1 _ (by decide) (Or.inl rfl)

/-! ## Uptime probe — `app/services/uptime_monitor.py` -/

/-- Result dictionary of `UptimeMonitor.check_uptime`. -/
structure UptimeResult where
  status_code : Option Nat
  response_time : Option Nat
  is_up : Bool
  error_message : Option String
  headers : Option (List (String × String))
  redirect_url : Option String
  redirect_chain : List String
deriving DecidableEq, Repr

/-- What the network did when `session.get` ran: a response, or one of the
exception classes the probe catches (`aiohttp.ClientError`,
`asyncio.TimeoutError`, any other `Exception`). -/
inductive UptimeOutcome
  | response (status : Nat) (headers : List (String × String))
      (finalUrl : String) (history : List String)
  | clientError (msg : String)
  | timeoutError
  | unexpectedError (msg : String)
deriving DecidableEq, Repr

/-- Which outcomes are internal failures (raised exceptions). -/
def UptimeOutcome.isFailure : UptimeOutcome → Bool
  | .response _ _ _ _ => false
  | _ => true

/-- `check_uptime` (`uptime_monitor.py:17-111`): builds the result record
from the outcome.  `timeout` is `settings.UPTIME_TIMEOUT`; `elapsedMs` is
the measured wall-clock time in milliseconds. -/
def check_uptime (timeout : Nat) (elapsedMs : Nat) (o : UptimeOutcome) :
    UptimeResult :=
  let init : UptimeResult :=
    { status_code := none, response_time := none, is_up := false,
      error_message := none, headers := none, redirect_url := none,
      redirect_chain := [] }
  match o with
  | .response status headers finalUrl history =>
      let r := if history.isEmpty then init else
        { init with redirect_url := some finalUrl,
                    redirect_chain := history }
      { r with status_code := some status,
               response_time := some elapsedMs,
               headers := some headers,
               is_up := 200 ≤ status && status < 400,
               error_message :=
                 if 200 ≤ status && status < 400 then none
                 else some ("HTTP " ++ toString status) }
  | .clientError msg =>
      { init with response_time := some elapsedMs, is_up := false,
                  error_message := some ("Connection error: " ++ msg) }
  | .timeoutError =>
      { init with response_time := some elapsedMs, is_up := false,
                  error_message :=
                    some ("Timeout after " ++ toString timeout ++ " seconds") }
  | .unexpectedError msg =>
      { init with response_time := some elapsedMs, is_up := false,
                  error_message := some ("Unexpected error: " ++ msg) }

/-! ## TLS certificate probe — `app/services/ssl_monitor.py` -/

/-- Result dictionary of `SSLMonitor.check_ssl_certificate`.  Timestamps
are seconds; `days_until_expiry` is the Python `timedelta.days` (floor
division by 86400). -/
structure SslResult where
  is_valid : Bool
  issuer : Option String
  subject : Option String
  valid_from : Option Int
  valid_until : Option Int
  days_until_expiry : Option Int
  error_message : Option String
deriving DecidableEq, Repr

/-- What the TLS connection did: a parsed leaf certificate, or one of the
exception classes the probe catches (`ssl.SSLError`, `socket.gaierror`,
`socket.timeout`, `ConnectionRefusedError`, any other `Exception`). -/
inductive SslOutcome
  | certificate (subject issuer : String) (valid_from valid_until : Int)
  | sslError (msg : String)
  | dnsError (msg : String)
  | timeoutError
  | connectionRefused
  | unexpectedError (msg : String)
deriving DecidableEq, Repr

def SslOutcome.isFailure : SslOutcome → Bool
  | .certificate _ _ _ _ => false
  | _ => true

/-- `check_ssl_certificate` (`ssl_monitor.py:68-183`).  `warning_days` is
`settings.SSL_WARNING_DAYS`; `now` is `datetime.now(timezone.utc)`. -/
def check_ssl_certificate (warning_days : Int) (now : Int)
    (o : SslOutcome) : SslResult :=
  let init : SslResult :=
    { is_valid := false, issuer := none, subject := none,
      valid_from := none, valid_until := none, days_until_expiry := none,
      error_message := none }
  match o with
  | .certificate subject issuer vf vu =>
      let days := Int.fdiv (vu - now) 86400
      let valid := decide (vf ≤ now) && decide (now ≤ vu)
      { is_valid := valid, issuer := some issuer, subject := some subject,
        valid_from := some vf, valid_until := some vu,
        days_until_expiry := some days,
        error_message :=
          if !valid then
            (if now < vf then some "Certificate not yet valid"
             else some "Certificate expired")
          else if days ≤ warning_days then
            some ("Certificate expires in " ++ toString days ++ " days")
          else none }
  | .sslError msg =>
      { init with error_message := some ("SSL error: " ++ msg) }
  | .dnsError msg =>
      { init with error_message := some ("DNS resolution failed: " ++ msg) }
  | .timeoutError =>
      { init with error_message := some "Connection timeout" }
  | .connectionRefused =>
      { init with error_message := some "Connection refused" }
  | .unexpectedError msg =>
      { init with error_message := some ("Unexpected error: " ++ msg) }

/-- Claim C3: both probes are total functions into their result records —
no outcome escapes as an exception — and every internal failure is
captured as an `error_message` together with the conservative unhealthy
defaults `is_up = false` (Uptime) and `is_valid = false` (TLS). -/
theorem probes_capture_failures :
    (∀ (timeout elapsedMs : Nat) (o : UptimeOutcome),
      o.isFailure = true →
        (check_uptime timeout elapsedMs o).is_up = false ∧
        (check_uptime timeout elapsedMs o).error_message.isSome = true) ∧
    (∀ (warning_days now : Int) (o : SslOutcome),
      o.isFailure = true →
        (check_ssl_certificate warning_days now o).is_valid = false ∧
        (check_ssl_certificate warning_days now o).error_message.isSome
          = true) := by
  constructor
  · intro timeout elapsedMs o ho
    cases o with
    | response status headers finalUrl history => simp [UptimeOutcome.isFailure] at ho
    | clientError msg => exact ⟨rfl, rfl⟩
    | timeoutError => exact ⟨rfl, rfl⟩
    | unexpectedError msg => exact ⟨rfl, rfl⟩
  · intro warning_days now o ho
    cases o with
    | certificate s i vf vu => simp [SslOutcome.isFailure] at ho
    | sslError msg => exact ⟨rfl, rfl⟩
    | dnsError msg => exact ⟨rfl, rfl⟩
    | timeoutError => exact ⟨rfl, rfl⟩
    | connectionRefused => exact ⟨rfl, rfl⟩
    | unexpectedError msg => exact ⟨rfl, rfl⟩

theorem probes_capture_failures_witness :
    (check_uptime 30 3000 UptimeOutcome.timeoutError).is_up = false ∧
    (check_uptime 30 3000 UptimeOutcome.timeoutError).error_message.isSome
      = true ∧
    (check_ssl_certificate 30 0 (SslOutcome.dnsError "x")).is_valid
      = false ∧
    (check_ssl_certificate 30 0
      (SslOutcome.dnsError "x")).error_message.isSome = true := by
  obtain ⟨hu, hs⟩ := probes_capture_failures
  obtain ⟨h1, h2⟩ := hu 30 3000 UptimeOutcome.timeoutError (by decide)
  obtain ⟨h3, h4⟩ := hs 30 0 (SslOutcome.dnsError "x") (by decide)
  exact ⟨h1, h2, h3, h4⟩

/-! ## The SSL alert decision in `check_site` — `monitoring_tasks.py:90-103` -/

/-- Python truthiness of `ssl_result.get("days_until_expiry")`: both
`None` and `0` are falsy. -/
def pyTruthy : Option Int → Bool
  | none => false
  | some n => n != 0

/-- The SSL branch of `check_site`: guard
`ssl_result.get("days_until_expiry") and
ssl_result["days_until_expiry"] < settings.SSL_WARNING_DAYS`, then
`create_alert(db, site, SSL, WARNING, ...)`.  (Python's `and`
short-circuits, so the indexed access only runs when the value is
truthy; `getD 0` is never the observed value.) -/
def check_site_ssl_step (db : AlertDb) (siteId : Nat) (siteName : String)
    (warning_days : Int) (r : SslResult) (now : Int) : AlertDb × List Nat :=
  if pyTruthy r.days_until_expiry &&
      decide (r.days_until_expiry.getD 0 < warning_days) then
    create_alert db siteId AlertType.SSL AlertSeverity.WARNING
      ("SSL certificate expiring soon for " ++ siteName)
      ("Certificate expires in " ++
        toString (r.days_until_expiry.getD 0) ++ " days") now
  else (db, [])

/-- Claim C4 is false on the code: the alert guard tests the Python
truthiness of `days_until_expiry`, not certificate validity.  A valid
certificate expiring today (`days_until_expiry = 0 < 30`) produces no
alert, and an invalid certificate (TLS error, `days_until_expiry =
None`) produces no alert either. -/
theorem ssl_alert_iff_cex :
    (check_ssl_certificate 30 0
      (SslOutcome.certificate "s" "i" (-86400) 0)).days_until_expiry
        = some 0 ∧
    (0 : Int) < 30 ∧
    check_site_ssl_step ⟨[], 0⟩ 1 "site" 30
      (check_ssl_certificate 30 0
        (SslOutcome.certificate "s" "i" (-86400) 0)) 0 = (⟨[], 0⟩, []) ∧
    (check_ssl_certificate 30 0 (SslOutcome.sslError "handshake")).is_valid
      = false ∧
    check_site_ssl_step ⟨[], 0⟩ 1 "site" 30
      (check_ssl_certificate 30 0 (SslOutcome.sslError "handshake")) 0
      = (⟨[], 0⟩, []) := by
  refine ⟨by decide, by decide, by decide, by decide, by decide⟩

/-- Claim C4 (amended): after a completed SSL check, a WARNING alert of
type SSL is attempted exactly when `days_until_expiry` is present,
nonzero, and strictly below `ssl_warning_days`; certificate invalidity
plays no role in the guard.  The concrete example of the spec holds: a
certificate with `valid_until = now + 10 days` under `ssl_warning_days =
30` yields `days_until_expiry = 10` and a WARNING SSL alert reporting 10
days. -/
theorem ssl_alert_guard_spec (db : AlertDb) (siteId : Nat) (name : String)
    (wd : Int) (r : SslResult) (now : Int)
    (hno : db.alerts.find? (isOpenFor siteId AlertType.SSL) = none) :
    ((∃ d, r.days_until_expiry = some d ∧ d ≠ 0 ∧ d < wd) →
      ∃ d, r.days_until_expiry = some d ∧
        (check_site_ssl_step db siteId name wd r now).1.alerts =
          db.alerts ++
            [{ id := db.nextId, site_id := siteId,
               alert_type := AlertType.SSL,
               severity := AlertSeverity.WARNING,
               status := AlertStatus.OPEN,
               title := "SSL certificate expiring soon for " ++ name,
               message := "Certificate expires in " ++ toString d ++ " days",
               created_at := now }] ∧
        (check_site_ssl_step db siteId name wd r now).2 = [db.nextId]) ∧
    ((¬ ∃ d, r.days_until_expiry = some d ∧ d ≠ 0 ∧ d < wd) →
      check_site_ssl_step db siteId name wd r now = (db, [])) ∧
    ((check_ssl_certificate 30 0
        (SslOutcome.certificate "s" "i" (-86400)
          (10 * 86400))).days_until_expiry = some 10) ∧
    (check_site_ssl_step ⟨[], 0⟩ 1 "s1" 30
        (check_ssl_certificate 30 0
          (SslOutcome.certificate "s" "i" (-86400) (10 * 86400))) 0).1.alerts
      = [{ id := 0, site_id := 1, alert_type := AlertType.SSL,
           severity := AlertSeverity.WARNING, status := AlertStatus.OPEN,
           title := "SSL certificate expiring soon for s1",
           message := "Certificate expires in 10 days", created_at := 0 }] := by
  refine ⟨?_, ?_, by decide, by decide⟩
  · rintro ⟨d, hd, hdz, hdw⟩
    refine ⟨d, hd, ?_, ?_⟩
    · simp [check_site_ssl_step, pyTruthy, hd, hdz, hdw, create_alert, hno]
    · simp [check_site_ssl_step, pyTruthy, hd, hdz, hdw, create_alert, hno]
  · intro hne
    cases hr : r.days_until_expiry with
    | none => simp [check_site_ssl_step, pyTruthy, hr]
    | some d =>
      by_cases hdz : d = 0
      · simp [check_site_ssl_step, pyTruthy, hr, hdz]
      · have hdw : ¬ (d < wd) := fun hlt => hne ⟨d, hr, hdz, hlt⟩
        simp [check_site_ssl_step, pyTruthy, hr, hdz, hdw]

theorem ssl_alert_guard_spec_witness :
    check_site_ssl_step ⟨[], 0⟩ 2 "w" 30
      (check_ssl_certificate 30 0
        (SslOutcome.certificate "s" "i" (-86400) 0)) 5 = (⟨[], 0⟩, []) :=
  (ssl_alert_guard_spec ⟨[], 0⟩ 2 "w" 30
    (check_ssl_certificate 30 0
      (SslOutcome.certificate "s" "i" (-86400) 0)) 5 (by decide)).2.1
    (by decide)

/-! ## URL helpers — `app/services/broken_links_monitor.py` -/

/-- Python `url.split('#')[0]`: the prefix before the first `#`. -/
def stripFragment (url : String) : String :=
  ⟨url.data.takeWhile (fun c => c ≠ '#')⟩

/-- Python `url.count('/')`. -/
def slashCount (url : String) : Nat :=
  (url.data.filter (fun c => c == '/')).length

/-- Python `url.endswith('/')`. -/
def endsWithSlash (url : String) : Bool :=
  url.data.getLast? == some '/'

/-- Python `url.rstrip('/')`: removes every trailing slash. -/
def rstripSlashes (url : String) : String :=
  ⟨(url.data.reverse.dropWhile (fun c => c == '/')).reverse⟩

/-- `_normalize_url` (`broken_links_monitor.py:41-58`): drop the fragment,
then strip trailing slashes when the URL ends with `/` and contains more
than two `/` characters. -/
def normalize_url (url : String) : String :=
  let url := stripFragment url
  if endsWithSlash url && decide (slashCount url > 2) then
    rstripSlashes url
  else url

theorem head?_dropWhile_not (p : Char → Bool) (l : List Char) :
    ∀ c, (l.dropWhile p).head? = some c → p c = false := by
  induction l with
  | nil => intro c hc; simp at hc
  | cons b l ih =>
    intro c hc
    by_cases hb : p b = true
    · rw [List.dropWhile_cons_of_pos hb] at hc
      exact ih c hc
    · rw [List.dropWhile_cons_of_neg hb] at hc
      simp only [List.head?_cons, Option.some.injEq] at hc
      rw [← hc]
      simpa using hb

theorem rstripSlashes_no_trailing (url : String) :
    endsWithSlash (rstripSlashes url) = false := by
  unfold endsWithSlash rstripSlashes
  cases hh : (url.data.reverse.dropWhile (fun c => c == '/')).head? with
  | none =>
    have : url.data.reverse.dropWhile (fun c => c == '/') = [] :=
      List.head?_eq_none_iff.mp hh
    simp [this]
  | some c =>
    have hc : (c == '/') = false :=
      head?_dropWhile_not (fun c => c == '/') url.data.reverse c hh
    rw [List.getLast?_reverse, hh]
    simpa using hc

/-- Claim C7 is false on the code: a root URL such as
`https://example.com/` contains three `/` characters, so
`url.count('/') > 2` holds and its trailing slash is stripped, not
preserved. -/
theorem normalize_url_root_cex :
    normalize_url "https://example.com/" = "https://example.com" ∧
    ("https://example.com" : String) ≠ "https://example.com/" := by
  refine ⟨by decide, by decide⟩

/-- Claim C7 (amended): `_normalize_url` removes the fragment; whenever
the fragment-stripped URL ends in `/` and contains more than two `/`
characters — which includes scheme-carrying root URLs like
`https://example.com/` — every trailing slash is removed, so the result
never ends in `/`; only when the stripped URL has at most two slashes
(or no trailing slash) is it returned unchanged. -/
theorem normalize_url_spec (url : String) :
    ('#' ∉ (normalize_url url).data) ∧
    (endsWithSlash (stripFragment url) = true →
      slashCount (stripFragment url) > 2 →
      endsWithSlash (normalize_url url) = false) ∧
    (endsWithSlash (stripFragment url) = false ∨
        ¬ (slashCount (stripFragment url) > 2) →
      normalize_url url = stripFragment url) := by
  refine ⟨?_, ?_, ?_⟩
  · have hsf : '#' ∉ (stripFragment url).data := by
      intro hmem
      have := List.mem_takeWhile_imp hmem
      simp at this
    unfold normalize_url
    by_cases hc : (endsWithSlash (stripFragment url) &&
        decide (slashCount (stripFragment url) > 2)) = true
    · rw [if_pos hc]
      intro hmem
      apply hsf
      unfold rstripSlashes at hmem
      simp only [List.mem_reverse] at hmem
      exact List.mem_reverse.mp (List.dropWhile_sublist _ |>.mem hmem)
    · rw [if_neg hc]
      exact hsf
  · intro he hs
    unfold normalize_url
    rw [if_pos (by simp [he, hs])]
    exact rstripSlashes_no_trailing _
  · intro h
    unfold normalize_url
    rw [if_neg ?_]
    cases h with
    | inl h => simp [h]
    | inr h => simp [h]

theorem normalize_url_spec_witness :
    ('#' ∉ (normalize_url "https://example.com/a#b").data) ∧
    normalize_url "https://a.co" = stripFragment "https://a.co" := by
  have h1 := (normalize_url_spec "https://example.com/a#b").1
  have h2 := (normalize_url_spec "https://a.co").2.2 (Or.inl (by decide))
  exact ⟨h1, h2⟩

/-! ## Broken-links pipeline — `app/services/broken_links_monitor.py` -/

/-- Modelled from `urllib.parse.urlparse` (Python stdlib, not part of this
repository): the netloc of a URL string — nonempty exactly when, after an
optional `scheme:` word, the string begins with `//`; the netloc then
extends up to the next `/`, `?` or `#`. -/
def netloc (url : String) : String :=
  let l := url.data
  let pre := l.takeWhile
    (fun c => c != ':' && c != '/' && c != '?' && c != '#')
  let rest :=
    if l.get? pre.length == some ':' then l.drop (pre.length + 1) else l
  match rest with
  | '/' :: '/' :: r =>
      ⟨r.takeWhile (fun c => c != '/' && c != '?' && c != '#')⟩
  | _ => ""

/-- Modelled from `urllib.parse.urlparse`: the scheme word of a URL,
empty when absent. -/
def urlScheme (url : String) : String :=
  let l := url.data
  let pre := l.takeWhile
    (fun c => c != ':' && c != '/' && c != '?' && c != '#')
  if l.get? pre.length == some ':' then ⟨pre⟩ else ""

/-- Modelled from `urllib.parse.urlparse`: the path part of a URL with a
`scheme://host` authority (everything after the host), or the whole
remainder when no authority is present. -/
def urlPathPart (url : String) : List Char :=
  let l := url.data
  let pre := l.takeWhile
    (fun c => c != ':' && c != '/' && c != '?' && c != '#')
  let rest :=
    if l.get? pre.length == some ':' then l.drop (pre.length + 1) else l
  match rest with
  | '/' :: '/' :: r =>
      r.dropWhile (fun c => c != '/' && c != '?' && c != '#')
  | _ => rest

/-- The directory of a path: everything up to and including the last `/`,
or `/` itself for an empty or slash-free path. -/
def dirOfPath (path : List Char) : List Char :=
  let rem := path.reverse.dropWhile (fun c => c != '/')
  if rem.isEmpty then ['/'] else rem.reverse

/-- Modelled from `urllib.parse.urljoin` (Python stdlib, not part of this
repository), restricted to the shapes `_extract_links` feeds it: an href
with its own scheme is returned unchanged; a protocol-relative href takes
the base's scheme; a root-relative href replaces the base's path; any
other href replaces the last segment of the base's path (dot segments,
queries and fragments are not resolved — fragments are stripped by
`_normalize_url` right after). -/
def urljoin (base href : String) : String :=
  if !(urlScheme href).data.isEmpty then href
  else if !(netloc href).data.isEmpty then
    ⟨(urlScheme base).data ++ ':' :: href.data⟩
  else
    let path :=
      if href.data.head? == some '/' then href.data
      else dirOfPath (urlPathPart base) ++ href.data
    ⟨(urlScheme base).data ++ ':' :: '/' :: '/' :: (netloc base).data ++ path⟩

/-- `_is_internal_link` (`broken_links_monitor.py:20-39`): a link with no
domain is internal; otherwise internal means equal domains. -/
def is_internal_link (base_url link_url : String) : Bool :=
  let base_domain := netloc base_url
  let link_domain := netloc link_url
  if link_domain.data.isEmpty then true
  else base_domain == link_domain

/-- Python `href.startswith(s)`. -/
def pyStartsWith (s w : String) : Bool :=
  w.data.isPrefixOf s.data

/-- `_extract_links` (`broken_links_monitor.py:83-118`): the BeautifulSoup
anchor scan is modelled as the document-order list of `href` attribute
values; empty, fragment-only, `javascript:`, `mailto:` and `tel:` hrefs
are skipped, the rest resolved against the base and normalized. -/
def extract_links (base_url : String) (hrefs : List String) :
    List String :=
  (hrefs.filter (fun href =>
    !(href.data.isEmpty || pyStartsWith href "#" ||
      pyStartsWith href "javascript:" || pyStartsWith href "mailto:" ||
      pyStartsWith href "tel:"))).map
    (fun href => normalize_url (urljoin base_url href))

/-- Helper for `dedupe`, carrying the set of links already seen. -/
def dedupeAux : List String → List String → List String
  | _, [] => []
  | seen, x :: xs =>
      if x ∈ seen then dedupeAux seen xs
      else x :: dedupeAux (x :: seen) xs

/-- `list(dict.fromkeys(all_links))` (`broken_links_monitor.py:242`):
deduplicate keeping the first occurrence of each link, in order. -/
def dedupe (l : List String) : List String := dedupeAux [] l

/-- Result dictionary of `_check_link`. -/
structure LinkCheckResult where
  url : String
  status_code : Option Nat
  is_broken : Bool
  error : Option String
deriving DecidableEq, Repr

/-- Outcome of the HEAD request and, when HEAD raises `ClientError`, of
the GET fallback (`_check_link`, `broken_links_monitor.py:120-181`). -/
inductive LinkOutcome
  | headOk (status : Nat)
  | headFailGetOk (status : Nat)
  | headFailGetClientError (msg : String)
  | headFailGetTimeout
  | headFailGetError (msg : String)
  | headTimeout
  | headError (msg : String)
deriving DecidableEq, Repr

/-- `_check_link`: a link is broken when the final status is ≥ 400 or the
request errors or times out. -/
def check_link (url : String) (o : LinkOutcome) : LinkCheckResult :=
  match o with
  | .headOk s =>
      { url := url, status_code := some s,
        is_broken := decide (s ≥ 400), error := none }
  | .headFailGetOk s =>
      { url := url, status_code := some s,
        is_broken := decide (s ≥ 400), error := none }
  | .headFailGetClientError m =>
      { url := url, status_code := none, is_broken := true,
        error := some ("Connection error: " ++ m) }
  | .headFailGetTimeout =>
      { url := url, status_code := none, is_broken := true,
        error := some "Timeout" }
  | .headFailGetError m =>
      { url := url, status_code := none, is_broken := true,
        error := some ("Error: " ++ m) }
  | .headTimeout =>
      { url := url, status_code := none, is_broken := true,
        error := some "Timeout" }
  | .headError m =>
      { url := url, status_code := none, is_broken := true,
        error := some ("Error: " ++ m) }

/-- One entry of `broken_link_details`. -/
structure BrokenDetail where
  url : String
  status_code : Option Nat
  error : Option String
  is_internal : Bool
deriving DecidableEq, Repr

/-- Result dictionary of `check_broken_links`. -/
structure BrokenLinksResult where
  total_links : Nat
  broken_links : Nat
  broken_link_details : List BrokenDetail
  internal_links : Nat
  external_links : Nat
  error_message : Option String
deriving DecidableEq, Repr

/-- `check_broken_links` (`broken_links_monitor.py:207-297`).  `fetch` is
the outcome of `_fetch_page_html`: `none` covers non-200 responses,
raised exceptions, and an empty body (all falsy under `if not html`);
`some hrefs` carries the page's anchors.  `probe` gives each unique
link's network outcome for `_check_link`. -/
def check_broken_links (url : String) (fetch : Option (List String))
    (probe : String → LinkOutcome) : BrokenLinksResult :=
  let init : BrokenLinksResult :=
    { total_links := 0, broken_links := 0, broken_link_details := [],
      internal_links := 0, external_links := 0, error_message := none }
  match fetch with
  | none => { init with error_message := some "Failed to fetch page" }
  | some hrefs =>
      let all_links := extract_links url hrefs
      let unique_links := dedupe all_links
      let internal := unique_links.filter (fun l => is_internal_link url l)
      let external :=
        unique_links.filter (fun l => !(is_internal_link url l))
      let check_results := unique_links.map (fun l => check_link l (probe l))
      let broken := (check_results.filter (fun r => r.is_broken)).map
        (fun r => ({ url := r.url, status_code := r.status_code,
                     error := r.error,
                     is_internal := is_internal_link url r.url } :
                    BrokenDetail))
      { total_links := unique_links.length,
        broken_links := broken.length,
        broken_link_details := broken,
        internal_links := internal.length,
        external_links := external.length,
        error_message := none }

theorem mem_dedupeAux (l : List String) :
    ∀ (seen : List String) (x : String),
      x ∈ dedupeAux seen l ↔ (x ∈ l ∧ x ∉ seen) := by
  induction l with
  | nil => intro seen x; simp [dedupeAux]
  | cons a l ih =>
    intro seen x
    by_cases ha : a ∈ seen
    · rw [dedupeAux, if_pos ha, ih]
      constructor
      · rintro ⟨hx, hs⟩
        exact ⟨List.mem_cons_of_mem a hx, hs⟩
      · rintro ⟨hx, hs⟩
        rcases List.mem_cons.mp hx with rfl | hx
        · exact absurd ha hs
        · exact ⟨hx, hs⟩
    · rw [dedupeAux, if_neg ha]
      constructor
      · intro hx
        rcases List.mem_cons.mp hx with rfl | hx
        · exact ⟨List.mem_cons_self x l, ha⟩
        · obtain ⟨h1, h2⟩ := (ih (a :: seen) x).mp hx
          refine ⟨List.mem_cons_of_mem a h1, fun hc => h2 ?_⟩
          exact List.mem_cons_of_mem a hc
      · rintro ⟨hx, hs⟩
        rcases List.mem_cons.mp hx with rfl | hx
        · exact List.mem_cons_self x _
        · by_cases hxa : x = a
          · exact hxa ▸ List.mem_cons_self a _
          · refine List.mem_cons_of_mem a ((ih (a :: seen) x).mpr ⟨hx, ?_⟩)
            intro hc
            rcases List.mem_cons.mp hc with h | h
            · exact hxa h
            · exact hs h

theorem dedupeAux_sublist (l : List String) :
    ∀ seen : List String, (dedupeAux seen l).Sublist l := by
  induction l with
  | nil => intro seen; simp [dedupeAux]
  | cons a l ih =>
    intro seen
    by_cases ha : a ∈ seen
    · rw [dedupeAux, if_pos ha]
      exact (ih seen).cons a
    · rw [dedupeAux, if_neg ha]
      exact (ih (a :: seen)).cons₂ a

theorem dedupeAux_nodup (l : List String) :
    ∀ seen : List String, (dedupeAux seen l).Nodup := by
  induction l with
  | nil => intro seen; simp [dedupeAux]
  | cons a l ih =>
    intro seen
    by_cases ha : a ∈ seen
    · rw [dedupeAux, if_pos ha]
      exact ih seen
    · rw [dedupeAux, if_neg ha]
      refine List.Nodup.cons ?_ (ih (a :: seen))
      intro hc
      exact ((mem_dedupeAux l (a :: seen) a).mp hc).2 (List.mem_cons_self a _)

theorem length_filter_map_le (l : List String)
    (f : String → LinkCheckResult) (p : LinkCheckResult → Bool)
    (g : LinkCheckResult → BrokenDetail) :
    (((l.map f).filter p).map g).length ≤ l.length := by
  rw [List.length_map]
  exact le_trans (List.length_filter_le _ _) (le_of_eq (List.length_map _ _))

/-- Claim C9: in every `check_broken_links` result,
`internal_links + external_links = total_links`, `broken_links` equals
the length of `broken_link_details` and is at most `total_links`; when
the page fetch fails all four counts are 0, the details list is empty,
and `error_message` is set. -/
theorem check_broken_links_invariants (url : String)
    (fetch : Option (List String)) (probe : String → LinkOutcome) :
    (check_broken_links url fetch probe).internal_links +
        (check_broken_links url fetch probe).external_links =
      (check_broken_links url fetch probe).total_links ∧
    (check_broken_links url fetch probe).broken_links =
      (check_broken_links url fetch probe).broken_link_details.length ∧
    (check_broken_links url fetch probe).broken_links ≤
      (check_broken_links url fetch probe).total_links ∧
    (fetch = none →
      (check_broken_links url fetch probe).total_links = 0 ∧
      (check_broken_links url fetch probe).broken_links = 0 ∧
      (check_broken_links url fetch probe).internal_links = 0 ∧
      (check_broken_links url fetch probe).external_links = 0 ∧
      (check_broken_links url fetch probe).broken_link_details = [] ∧
      (check_broken_links url fetch probe).error_message =
        some "Failed to fetch page") := by
  cases fetch with
  | none =>
    exact ⟨rfl, rfl, Nat.le_refl 0, fun _ => ⟨rfl, rfl, rfl, rfl, rfl, rfl⟩⟩
  | some hrefs =>
    refine ⟨?_, rfl, ?_, fun hc => by simp at hc⟩
    · simp only [check_broken_links]
      exact (List.length_eq_length_filter_add
        (fun l => is_internal_link url l)).symm
    · simp only [check_broken_links]
      exact length_filter_map_le _ _ _ _

theorem check_broken_links_invariants_witness :
    (check_broken_links "https://a.com" none
        (fun _ => LinkOutcome.headOk 200)).total_links = 0 ∧
    (check_broken_links "https://a.com" none
        (fun _ => LinkOutcome.headOk 200)).error_message =
      some "Failed to fetch page" := by
  have h := (check_broken_links_invariants "https://a.com" none
    (fun _ => LinkOutcome.headOk 200)).2.2.2 rfl
  exact ⟨h.1, h.2.2.2.2.2⟩

/-- The anchor hrefs of claim C6's page: five distinct links after
resolution (three on the page's own host — one of them root-relative —
and two external), with `https://a.com/x` occurring three times. -/
def c6hrefs : List String :=
  ["https://a.com/x", "/y", "https://a.com/x", "https://b.com/1",
   "https://a.com/z", "https://c.com/2", "https://a.com/x"]

theorem string_data_empty_iff (s : String) :
    s.data.isEmpty = true ↔ s = "" := by
  cases s with
  | mk d =>
    cases d with
    | nil => simp
    | cons c cs =>
      simp only [List.isEmpty_cons]
      constructor
      · intro hc; exact absurd hc (by simp)
      · intro hc; exact absurd hc (by simp [String.ext_iff])

/-- Claim C6: on the described page `total_links = 5`,
`internal_links = 3`, `external_links = 2`, with one link occurring three
times before deduplication; in general `dedupe` keeps exactly the
distinct links in first-seen order (a duplicate-free sublist with the
same members), and a unique link is classified internal exactly when its
host is empty (relative) or equals the page's host. -/
theorem broken_links_counts_spec :
    (check_broken_links "https://a.com/page" (some c6hrefs)
        (fun _ => LinkOutcome.headOk 200)).total_links = 5 ∧
    (check_broken_links "https://a.com/page" (some c6hrefs)
        (fun _ => LinkOutcome.headOk 200)).internal_links = 3 ∧
    (check_broken_links "https://a.com/page" (some c6hrefs)
        (fun _ => LinkOutcome.headOk 200)).external_links = 2 ∧
    (extract_links "https://a.com/page" c6hrefs).count "https://a.com/x"
      = 3 ∧
    (∀ l : List String, (dedupe l).Nodup ∧ (dedupe l).Sublist l ∧
      ∀ x : String, x ∈ dedupe l ↔ x ∈ l) ∧
    (∀ base link : String, is_internal_link base link = true ↔
      (netloc link = "" ∨ netloc link = netloc base)) := by
  refine ⟨by decide, by decide, by decide, by decide, ?_, ?_⟩
  · intro l
    refine ⟨dedupeAux_nodup l [], dedupeAux_sublist l [], fun x => ?_⟩
    rw [dedupe, mem_dedupeAux]
    simp
  · intro base link
    simp only [is_internal_link]
    by_cases hl : (netloc link).data.isEmpty = true
    · rw [if_pos hl]
      simp only [true_iff]
      exact Or.inl ((string_data_empty_iff _).mp hl)
    · have hne : netloc link ≠ "" := by
        intro hc
        exact hl ((string_data_empty_iff _).mpr hc)
      rw [if_neg hl]
      simp only [beq_iff_eq]
      constructor
      · intro h
        exact Or.inr h.symm
      · rintro (hc | hc)
        · exact absurd hc hne
        · exact hc.symm

/-! ## SEO probe — `app/services/seo_monitor.py` -/

/-- One entry of the `issues` list.  The failure entry appended by
`check_seo`'s except-block carries no "severity" key, hence the `Option`;
`_calculate_seo_score` reads it as `issue.get("severity", "info")`. -/
structure SeoIssue where
  type : String
  severity : Option String
  message : String
deriving DecidableEq, Repr

/-- Result dictionary of `check_seo`, as initialized at the top of the
function. -/
structure SeoResult where
  title : Option String
  title_length : Nat
  meta_description : Option String
  meta_description_length : Nat
  h1_tags : List String
  h1_count : Nat
  h2_count : Nat
  word_count : Nat
  images_total : Nat
  images_without_alt : Nat
  internal_links : Nat
  external_links : Nat
  has_robots_txt : Bool
  has_sitemap : Bool
  is_mobile_friendly : Bool
  has_schema_markup : Bool
  has_og_tags : Bool
  has_twitter_tags : Bool
  seo_score : Int
  issues : List SeoIssue
deriving DecidableEq, Repr

/-- The initial `result` dictionary (`seo_monitor.py:25-46`); note
`seo_score` starts at 0. -/
def initSeoResult : SeoResult :=
  { title := none, title_length := 0, meta_description := none,
    meta_description_length := 0, h1_tags := [], h1_count := 0,
    h2_count := 0, word_count := 0, images_total := 0,
    images_without_alt := 0, internal_links := 0, external_links := 0,
    has_robots_txt := false, has_sitemap := false,
    is_mobile_friendly := false, has_schema_markup := false,
    has_og_tags := false, has_twitter_tags := false,
    seo_score := 0, issues := [] }

/-- The fetched page as the analyzers consume it; the BeautifulSoup and
HTTP plumbing (soup.find calls, the robots/sitemap requests, the \w+
word tokenizer) is modelled as already-extracted fields. -/
structure SeoPage where
  title_tag : Option String
  meta_content : Option String
  h1_texts : List String
  h2_count : Nat
  word_count : Nat
  images_total : Nat
  images_without_alt : Nat
  hrefs : List String
  has_og_tags : Bool
  has_twitter_tags : Bool
  has_schema_markup : Bool
  has_viewport : Bool
  robots_ok : Bool
  sitemap_ok : Bool
deriving DecidableEq, Repr

/-- Python `str.strip()` restricted to the common ASCII whitespace. -/
def isPySpace (c : Char) : Bool :=
  c == ' ' || c == '\t' || c == '\n' || c == '\r'

def pyStrip (s : String) : String :=
  ⟨((s.data.dropWhile isPySpace).reverse.dropWhile isPySpace).reverse⟩

/-- `result["issues"].append({...})` with a severity key. -/
def addIssue (r : SeoResult) (ty sev msg : String) : SeoResult :=
  { r with issues := r.issues ++ [⟨ty, some sev, msg⟩] }

/-- `_extract_title` (`seo_monitor.py:84-114`). -/
def extract_title (page : SeoPage) (r : SeoResult) : SeoResult :=
  match page.title_tag with
  | some t0 =>
      let t := pyStrip t0
      let r := { r with title := some t, title_length := t.data.length }
      if r.title_length == 0 then
        addIssue r "title" "error" "Page title is empty"
      else if r.title_length < 30 then
        addIssue r "title" "warning" ("Page title is too short (" ++
          toString r.title_length ++ " chars, recommend 50-60)")
      else if r.title_length > 60 then
        addIssue r "title" "warning" ("Page title is too long (" ++
          toString r.title_length ++ " chars, recommend 50-60)")
      else r
  | none => addIssue r "title" "error" "Page title is missing"

/-- `_extract_meta_description` (`seo_monitor.py:116-146`). -/
def extract_meta_description (page : SeoPage) (r : SeoResult) : SeoResult :=
  match page.meta_content with
  | some c0 =>
      let c := pyStrip c0
      let r := { r with meta_description := some c,
                        meta_description_length := c.data.length }
      if r.meta_description_length == 0 then
        addIssue r "meta_description" "error" "Meta description is empty"
      else if r.meta_description_length < 120 then
        addIssue r "meta_description" "warning"
          ("Meta description is too short (" ++
            toString r.meta_description_length ++
            " chars, recommend 150-160)")
      else if r.meta_description_length > 160 then
        addIssue r "meta_description" "warning"
          ("Meta description is too long (" ++
            toString r.meta_description_length ++
            " chars, recommend 150-160)")
      else r
  | none =>
      addIssue r "meta_description" "error" "Meta description is missing"

/-- `_extract_headers` (`seo_monitor.py:148-168`). -/
def extract_headers (page : SeoPage) (r : SeoResult) : SeoResult :=
  let r := { r with h1_tags := page.h1_texts.map pyStrip,
                    h1_count := page.h1_texts.length,
                    h2_count := page.h2_count }
  if r.h1_count == 0 then
    addIssue r "headers" "error" "No H1 tag found"
  else if r.h1_count > 1 then
    addIssue r "headers" "warning" ("Multiple H1 tags found (" ++
      toString r.h1_count ++ "), recommend only one")
  else r

/-- `_analyze_content` (`seo_monitor.py:170-182`). -/
def analyze_content (page : SeoPage) (r : SeoResult) : SeoResult :=
  let r := { r with word_count := page.word_count }
  if r.word_count < 300 then
    addIssue r "content" "warning" ("Low word count (" ++
      toString r.word_count ++ " words, recommend 300+)")
  else r

/-- `_analyze_images` (`seo_monitor.py:184-195`). -/
def analyze_images (page : SeoPage) (r : SeoResult) : SeoResult :=
  let r := { r with images_total := page.images_total,
                    images_without_alt := page.images_without_alt }
  if r.images_without_alt > 0 then
    addIssue r "images" "warning" (toString r.images_without_alt ++
      " of " ++ toString r.images_total ++ " images missing alt text")
  else r

/-- `_analyze_links` (`seo_monitor.py:197-209`). -/
def analyze_links (base_url : String) (page : SeoPage) (r : SeoResult) :
    SeoResult :=
  page.hrefs.foldl (fun r href =>
    if (netloc href).data.isEmpty || netloc href == netloc base_url then
      { r with internal_links := r.internal_links + 1 }
    else { r with external_links := r.external_links + 1 }) r

/-- `_check_social_tags` (`seo_monitor.py:211-231`). -/
def check_social_tags (page : SeoPage) (r : SeoResult) : SeoResult :=
  let r := { r with has_og_tags := page.has_og_tags,
                    has_twitter_tags := page.has_twitter_tags }
  let r := if !r.has_og_tags then
    addIssue r "social" "info" "No Open Graph tags found" else r
  if !r.has_twitter_tags then
    addIssue r "social" "info" "No Twitter Card tags found" else r

/-- `_check_schema_markup` (`seo_monitor.py:233-248`). -/
def check_schema_markup (page : SeoPage) (r : SeoResult) : SeoResult :=
  let r := { r with has_schema_markup := page.has_schema_markup }
  if !r.has_schema_markup then
    addIssue r "schema" "info" "No schema.org markup found" else r

/-- `_check_mobile_friendly` (`seo_monitor.py:250-260`). -/
def check_mobile_friendly (page : SeoPage) (r : SeoResult) : SeoResult :=
  let r := { r with is_mobile_friendly := page.has_viewport }
  if !r.is_mobile_friendly then
    addIssue r "mobile" "warning"
      "No viewport meta tag found (not mobile-friendly)"
  else r

/-- `_check_robots_txt` (`seo_monitor.py:262-278`); every exception is
swallowed into `has_robots_txt = False`, folded into `robots_ok`. -/
def check_robots_txt (page : SeoPage) (r : SeoResult) : SeoResult :=
  let r := { r with has_robots_txt := page.robots_ok }
  if !r.has_robots_txt then
    addIssue r "robots" "info" "No robots.txt file found" else r

/-- `_check_sitemap` (`seo_monitor.py:280-307`); note the missing-sitemap
issue carries severity "warning" in the source. -/
def check_sitemap (page : SeoPage) (r : SeoResult) : SeoResult :=
  let r := { r with has_sitemap := page.sitemap_ok }
  if !r.has_sitemap then
    addIssue r "sitemap" "warning" "No XML sitemap found" else r

/-- `issue.get("severity", "info")` deductions of
`_calculate_seo_score`. -/
def severityDeduction (sev : String) : Int :=
  if sev == "error" then 10
  else if sev == "warning" then 5
  else if sev == "info" then 2
  else 0

/-- `_calculate_seo_score` (`seo_monitor.py:309-338`). -/
def calculate_seo_score (r : SeoResult) : Int :=
  let score := r.issues.foldl
    (fun s i => s - severityDeduction (i.severity.getD "info")) 100
  let score := if r.has_og_tags then score + 5 else score
  let score := if r.has_twitter_tags then score + 5 else score
  let score := if r.has_schema_markup then score + 5 else score
  let score := if r.is_mobile_friendly then score + 10 else score
  let score := if r.has_robots_txt then score + 2 else score
  let score := if r.has_sitemap then score + 5 else score
  max 0 (min 100 score)

/-- The analyzer sequence of `check_seo`'s try-block, in source order
(`seo_monitor.py:58-70`). -/
def seoSteps (base_url : String) (page : SeoPage) :
    List (SeoResult → SeoResult) :=
  [extract_title page, extract_meta_description page,
   extract_headers page, analyze_content page, analyze_images page,
   analyze_links base_url page, check_social_tags page,
   check_schema_markup page, check_mobile_friendly page,
   check_robots_txt page, check_sitemap page]

/-- How the try-block of `check_seo` ends: all analyzers ran, the fetch
raised, or an exception interrupted the sequence after `k` analyzers. -/
inductive SeoEnv
  | ok (page : SeoPage)
  | fetchFail (msg : String)
  | analyzeFail (page : SeoPage) (k : Nat) (msg : String)

/-- The except-block's issue entry (`seo_monitor.py:77-80`): type
"error", a message, and no severity key. -/
def seoFailIssue (msg : String) : SeoIssue :=
  ⟨"error", none, "Failed to perform SEO check: " ++ msg⟩

/-- `check_seo` (`seo_monitor.py:15-82`): on success every analyzer runs
and the score is computed last; on any exception the score line is never
reached and the failure issue is appended to whatever accumulated. -/
def check_seo (base_url : String) (env : SeoEnv) : SeoResult :=
  match env with
  | .ok page =>
      let r := (seoSteps base_url page).foldl (fun r f => f r) initSeoResult
      { r with seo_score := calculate_seo_score r }
  | .fetchFail msg =>
      { initSeoResult with
        issues := initSeoResult.issues ++ [seoFailIssue msg] }
  | .analyzeFail page k msg =>
      let r := ((seoSteps base_url page).take k).foldl
        (fun r f => f r) initSeoResult
      { r with issues := r.issues ++ [seoFailIssue msg] }

/-- SEO branch of `check_site` (`monitoring_tasks.py:155-168`): a
WARNING SEO alert when `seo_result.get("seo_score", 100) < 50` (the key
is always present in the result dictionary). -/
def check_site_seo_step (db : AlertDb) (siteId : Nat) (siteName : String)
    (r : SeoResult) (now : Int) : AlertDb × List Nat :=
  if r.seo_score < 50 then
    create_alert db siteId AlertType.SEO AlertSeverity.WARNING
      ("Low SEO score for " ++ siteName)
      ("SEO score: " ++ toString r.seo_score ++ "/100") now
  else (db, [])

theorem addIssue_score (r : SeoResult) (ty sev msg : String) :
    (addIssue r ty sev msg).seo_score = r.seo_score := rfl

theorem analyze_links_score (b : String) (page : SeoPage) (r : SeoResult) :
    (analyze_links b page r).seo_score = r.seo_score := by
  unfold analyze_links
  generalize page.hrefs = hs
  induction hs generalizing r with
  | nil => rfl
  | cons h t ih =>
    rw [List.foldl_cons, ih]
    by_cases hc : ((netloc h).data.isEmpty || netloc h == netloc b) = true
    · rw [if_pos hc]
    · rw [if_neg hc]

theorem seoSteps_preserve_score (base_url : String) (page : SeoPage) :
    ∀ f ∈ seoSteps base_url page, ∀ r, (f r).seo_score = r.seo_score := by
  intro f hf r
  simp only [seoSteps, List.mem_cons, List.mem_singleton] at hf
  rcases hf with rfl | rfl | rfl | rfl | rfl | rfl | rfl | rfl | rfl | rfl
    | rfl | hf
  · unfold extract_title
    cases page.title_tag <;> dsimp only <;>
      first | rfl | (split_ifs <;> rfl)
  · unfold extract_meta_description
    cases page.meta_content <;> dsimp only <;>
      first | rfl | (split_ifs <;> rfl)
  · unfold extract_headers
    dsimp only
    split_ifs <;> rfl
  · unfold analyze_content
    dsimp only
    split_ifs <;> rfl
  · unfold analyze_images
    dsimp only
    split_ifs <;> rfl
  · exact analyze_links_score base_url page r
  · unfold check_social_tags
    dsimp only
    split_ifs <;> rfl
  · unfold check_schema_markup
    dsimp only
    split_ifs <;> rfl
  · unfold check_mobile_friendly
    dsimp only
    split_ifs <;> rfl
  · unfold check_robots_txt
    dsimp only
    split_ifs <;> rfl
  · unfold check_sitemap
    dsimp only
    split_ifs <;> rfl
  · exact absurd hf (List.not_mem_nil f)

theorem foldl_steps_score (fs : List (SeoResult → SeoResult))
    (hfs : ∀ f ∈ fs, ∀ r, (f r).seo_score = r.seo_score) :
    ∀ r : SeoResult,
      (fs.foldl (fun r f => f r) r).seo_score = r.seo_score := by
  induction fs with
  | nil => intro r; rfl
  | cons f t ih =>
    intro r
    rw [List.foldl_cons,
      ih (fun g hg => hfs g (List.mem_cons_of_mem f hg)) (f r)]
    exact hfs f (List.mem_cons_self f t) r

/-- Claim C10: when the fetch or any analyzer raises inside `check_seo`,
the returned result still has `seo_score = 0` (the score line is never
reached) and its issues end with the failure entry; consequently
`check_site`, seeing `seo_score < 50`, creates a WARNING SEO alert (when
no open SEO alert exists for the site). -/
theorem check_seo_failure_alert (base_url : String) (env : SeoEnv)
    (hfail : ∀ page, env ≠ SeoEnv.ok page)
    (db : AlertDb) (siteId : Nat) (name : String) (now : Int)
    (hno : db.alerts.find? (isOpenFor siteId AlertType.SEO) = none) :
    (check_seo base_url env).seo_score = 0 ∧
    (∃ pre msg,
      (check_seo base_url env).issues = pre ++ [seoFailIssue msg]) ∧
    (check_site_seo_step db siteId name (check_seo base_url env)
        now).1.alerts =
      db.alerts ++
        [{ id := db.nextId, site_id := siteId,
           alert_type := AlertType.SEO, severity := AlertSeverity.WARNING,
           status := AlertStatus.OPEN,
           title := "Low SEO score for " ++ name,
           message := "SEO score: 0/100", created_at := now }] ∧
    (check_site_seo_step db siteId name (check_seo base_url env) now).2 =
      [db.nextId] := by
  have hmsg : "SEO score: " ++ toString (0 : Int) ++ "/100" =
      "SEO score: 0/100" := rfl
  have hs0 : (check_seo base_url env).seo_score = 0 := by
    cases env with
    | ok page => exact absurd rfl (hfail page)
    | fetchFail msg => rfl
    | analyzeFail page k msg =>
      show (((seoSteps base_url page).take k).foldl
        (fun r f => f r) initSeoResult).seo_score = 0
      rw [foldl_steps_score _ (fun f hf =>
        seoSteps_preserve_score base_url page f
          (List.take_subset k _ hf))]
      rfl
  refine ⟨hs0, ?_, ?_, ?_⟩
  · cases env with
    | ok page => exact absurd rfl (hfail page)
    | fetchFail msg => exact ⟨[], msg, rfl⟩
    | analyzeFail page k msg => exact ⟨_, msg, rfl⟩
  · simp [check_site_seo_step, hs0, create_alert, hno, hmsg]
  · simp [check_site_seo_step, hs0, create_alert, hno, hmsg]

theorem check_seo_failure_alert_witness :
    (check_seo "https://w.com" (SeoEnv.fetchFail "boom")).seo_score = 0 ∧
    (check_site_seo_step ⟨[], 0⟩ 3 "w"
        (check_seo "https://w.com" (SeoEnv.fetchFail "boom")) 7).1.alerts =
      [{ id := 0, site_id := 3, alert_type := AlertType.SEO,
         severity := AlertSeverity.WARNING, status := AlertStatus.OPEN,
         title := "Low SEO score for w", message := "SEO score: 0/100",
         created_at := 7 }] := by
  have h := check_seo_failure_alert "https://w.com"
    (SeoEnv.fetchFail "boom") (fun page hc => SeoEnv.noConfusion hc)
    ⟨[], 0⟩ 3 "w" 7 (by decide)
  exact ⟨h.1, by rw [h.2.2.1]; rfl⟩

/-- Claim C5's page: title tag present but empty, no meta description,
zero H1 tags, 300 words, no images, no links, and none of the bonus
signals (no Open Graph, Twitter, schema, viewport, robots.txt or
sitemap). -/
def c5page : SeoPage :=
  { title_tag := some "", meta_content := none, h1_texts := [],
    h2_count := 1, word_count := 300, images_total := 0,
    images_without_alt := 0, hrefs := [],
    has_og_tags := false, has_twitter_tags := false,
    has_schema_markup := false, has_viewport := false,
    robots_ok := false, sitemap_ok := false }

/-- Claim C5 is false on the code: the described page scores 52, not 70,
because a page without the bonus signals also accrues issues for each
missing signal (info for OG/Twitter/schema/robots, warning for viewport
and sitemap). -/
theorem seo_score_70_cex :
    (check_seo "https://e.com" (SeoEnv.ok c5page)).seo_score = 52 ∧
    (52 : Int) ≠ 70 := ⟨by decide, by decide⟩

/-- Claim C5 (amended): the page with empty title, missing meta
description and zero H1 tags and no bonus signals accrues exactly three
error issues, two warning issues (missing viewport, missing sitemap) and
four info issues (missing OG, Twitter, schema markup, robots.txt), so
`seo_score = 100 - 3*10 - 2*5 - 4*2 = 52`; the value
`100 - 10 - 10 - 10 = 70` is what `_calculate_seo_score` returns on
exactly the three error issues with no bonus flags. -/
theorem seo_score_52_amended :
    (check_seo "https://e.com" (SeoEnv.ok c5page)).seo_score = 52 ∧
    ((check_seo "https://e.com" (SeoEnv.ok c5page)).issues.filter
      (fun i => i.severity.getD "info" == "error")).length = 3 ∧
    ((check_seo "https://e.com" (SeoEnv.ok c5page)).issues.filter
      (fun i => i.severity.getD "info" == "warning")).length = 2 ∧
    ((check_seo "https://e.com" (SeoEnv.ok c5page)).issues.filter
      (fun i => i.severity.getD "info" == "info")).length = 4 ∧
    calculate_seo_score { initSeoResult with issues :=
      [⟨"title", some "error", "Page title is empty"⟩,
       ⟨"meta_description", some "error", "Meta description is missing"⟩,
       ⟨"headers", some "error", "No H1 tag found"⟩] } = 70 := by
  refine ⟨by decide, by decide, by decide, by decide, by decide⟩

end LongBark
